import Mathlib

/-!
Shallow embedding of the Athena retrieval-augmented answering pipeline
(`src/chat_engine.py`, `src/qa_engine.py`, `semantic_search.py`,
`pdf_utils.py`).

Modelling conventions:
- Python strings are Lean `String`s; Python slicing `s[:n]` is `strTake s n`
  (take the first `n` characters).
- The Ollama HTTP backend is external.  One streaming POST request is
  modelled by a function `backend : String → BackendResponse` from the
  prompt sent to the outcome of the request: a connection error, a timeout,
  or an HTTP response carrying a status code, a body text, and the list of
  newline-delimited lines of the streamed reply.
- A streamed line is blank (skipped by `if line:`), malformed (not JSON,
  skipped by the `except ... continue`), or a parsed JSON record with an
  optional `response` string field and a `done` boolean field.
- `hashlib.md5(...).hexdigest()` is an external library digest; it is
  modelled by a concrete deterministic function producing a 32-character
  hex string (`md5hex`).  No claim depends on the internals of the digest,
  only on determinism and on the code's truncations around it.
- Python `str.strip()` is `pyStrip`, `str.lower()` is `pyLower` and
  `sep.join(...)` is `pyJoin` — explicit character-list definitions
  (faithful on ASCII, which is all the code manipulates) so that every
  definition evaluates by kernel reduction.
- The model name and the temperature only flow into the request payload,
  which the `backend` parameter abstracts, so they are not carried in the
  state.
-/

/-- One hex digit per step: `Nat.digitChar` maps 0–15 to `0`–`9`,
`a`–`f`. `natToHex n w` renders `n` in `w` hex digits, least-significant
digit first (so that a short prefix of the output already depends on
`n`, as a prefix of a real digest depends on its input).  -/
def natToHex : Nat → Nat → String
  | _, 0 => ""
  | n, w + 1 => String.singleton (Nat.digitChar (n % 16)) ++ natToHex (n / 16) w

/-- Modelled from the spec: `hashlib.md5(x).hexdigest()` — an external
library call producing "a short deterministic digest" as a 32-character
hex string.  Modelled as a deterministic polynomial hash of the
characters, reduced mod 2^128 and rendered in 32 hex digits.  -/
def md5hex (s : String) : String :=
  natToHex (s.data.foldl (fun a c => (a * 65599 + c.toNat + 1) % (2 ^ 128)) 1) 32

/-- Python slicing `s[:n]`: the first `n` characters of `s`.  -/
def strTake (s : String) (n : Nat) : String :=
  String.mk (s.data.take n)

/-- Python `str.strip()`: remove leading and trailing whitespace
characters.  (Defined on the character list so that it evaluates inside
the kernel; Lean's `String.trim` computes the same string.)  -/
def pyStrip (s : String) : String :=
  String.mk (((s.data.dropWhile Char.isWhitespace).reverse.dropWhile Char.isWhitespace).reverse)

/-- Python `str.lower()` on the ASCII range the code manipulates: map
`A`–`Z` to `a`–`z` and leave every other character unchanged.  -/
def pyLower (s : String) : String :=
  String.mk (s.data.map (fun c =>
    if 65 ≤ c.toNat ∧ c.toNat ≤ 90 then Char.ofNat (c.toNat + 32) else c))

/-- Python `sep.join(parts)`.  -/
def pyJoin (sep : String) : List String → String
  | [] => ""
  | [x] => x
  | x :: xs => x ++ sep ++ pyJoin sep xs

/-- Substring containment: `sub` occurs contiguously inside `hay`.  -/
def strContains (hay sub : String) : Prop :=
  ∃ pre post, hay.data = pre ++ sub.data ++ post

/-- One line of the newline-delimited streaming reply
(`response.iter_lines()`): blank, not parseable as JSON, or a parsed
record with the optional `response` token field and the `done` flag.  -/
inductive StreamLine where
  | blank : StreamLine
  | malformed : String → StreamLine
  | record : Option String → Bool → StreamLine
  deriving DecidableEq

/-- Outcome of the single streaming POST request issued to the backend:
`requests.exceptions.ConnectionError`, `requests.exceptions.Timeout`, or
an HTTP response with status code, body text and streamed lines.  -/
inductive BackendResponse where
  | connError : BackendResponse
  | timeout : BackendResponse
  | http : Nat → String → List StreamLine → BackendResponse
  deriving DecidableEq

/-- The shared streaming loop of `chat_engine.chat_stream` and
`qa_engine.answer_stream` (`for line in response.iter_lines(): ...`):
skip blank lines, skip lines that fail JSON parsing, read the `response`
field (defaulting to `""`), yield it when non-empty, then break when the
`done` field is true.  Returns the list of yielded tokens in order.  -/
def streamTokens : List StreamLine → List String
  | [] => []
  | .blank :: rest => streamTokens rest
  | .malformed _ :: rest => streamTokens rest
  | .record r done :: rest =>
    let token := r.getD ""
    let yielded := if token = "" then [] else [token]
    if done then yielded else yielded ++ streamTokens rest

/-- Spec-side definition (from the spec's words, for claim C2): the lines
the client consumes — everything up to and including the record carrying
the terminal marker, or the whole stream when no such record occurs.  -/
def upToDone : List StreamLine → List StreamLine
  | [] => []
  | .blank :: rest => .blank :: upToDone rest
  | .malformed s :: rest => .malformed s :: upToDone rest
  | .record r done :: rest =>
    if done then [.record r done] else .record r done :: upToDone rest

/-- Spec-side field extraction (for claim C2): the token field of a
parseable record, and nothing from a blank or malformed line.  -/
def recordToken : StreamLine → Option String
  | .blank => none
  | .malformed _ => none
  | .record r _ => some (r.getD "")

/-- Spec-side token list (from the spec's words, for claim C2): the
non-empty token fields of the parseable records among the consumed lines,
in order — the record carrying the terminal marker included.  -/
def tokensSpec (lines : List StreamLine) : List String :=
  ((upToDone lines).filterMap recordToken).filter (fun t => t ≠ "")

/-- One conversation turn as appended by `chat_stream`:
`{'timestamp': ..., 'user': ..., 'assistant': ...}`.  The timestamp
(`datetime.now()`) is modelled as a number supplied by the caller.  -/
structure Turn where
  timestamp : Nat
  user : String
  assistant : String
  deriving DecidableEq

/-- The response cache `self._response_cache` (a Python dict keyed by the
cache-key string), modelled as an association list where the most recent
binding for a key shadows older ones.  -/
abbrev Cache := List (String × String)

/-- Dictionary lookup `cache_key in self._response_cache` /
`self._response_cache[cache_key]`.  -/
def cacheGet (c : Cache) (k : String) : Option String :=
  match List.find? (fun p => p.1 == k) c with
  | some p => some p.2
  | none => none

/-- Dictionary store `self._response_cache[cache_key] = value`.  -/
def cachePut (c : Cache) (k v : String) : Cache :=
  (k, v) :: c

/-- The mutable state of one `AthenaChat` instance: `self.chat_history`,
`self.pdf_context`, `self._response_cache`.  -/
structure ChatState where
  chat_history : List Turn
  pdf_context : Option String
  cache : Cache
  deriving DecidableEq

/-- The state `AthenaChat.__init__` builds: empty history, no PDF
context, empty cache.  -/
def initState : ChatState := ⟨[], none, []⟩

/-- `AthenaChat._get_cache_key`: an 8-character truncation of the digest
of the first 1000 characters of the context (`None` read as `""`),
an underscore, and the full digest of the lower-cased, stripped
message.  -/
def get_cache_key (pdf_context : Option String) (user_message : String) : String :=
  let context_hash := strTake (md5hex (strTake (pdf_context.getD "") 1000)) 8
  let msg_hash := md5hex (pyStrip (pyLower user_message))
  context_hash ++ "_" ++ msg_hash

/-- Error message yielded by `chat_stream` on `requests.exceptions.ConnectionError`.  -/
def chatConnMsg : String :=
  "❌ Could not connect to Ollama. Make sure it's running: `ollama serve`"

/-- Error message yielded by `chat_stream` on `requests.exceptions.Timeout`.  -/
def chatTimeoutMsg : String :=
  "❌ Request timed out. The model is taking too long to respond."

/-- Error message yielded by `chat_stream` on a non-200 status code
(only the code is interpolated, not the body).  -/
def chatStatusMsg (status : Nat) : String :=
  "❌ Error: " ++ toString status

/-- `AthenaChat._build_context`: the last three history turns rendered as
speaker-labelled lines, or a fixed opener for an empty history.  -/
def build_context (s : ChatState) : String :=
  if s.chat_history = [] then "This is the start of the conversation."
  else
    pyJoin "\n"
      ("Previous conversation:" ::
        (s.chat_history.drop (s.chat_history.length - 3)).flatMap
          (fun e => ["User: " ++ e.user, "Athena: " ++ e.assistant]))

/-- The prompt `chat_stream` builds: with a truthy (non-`None`, non-empty)
PDF context the document excerpt truncated to 1500 characters is
prepended; otherwise the plain persona prompt is used.  -/
def chat_prompt (s : ChatState) (user_message : String) : String :=
  if (s.pdf_context.getD "") ≠ "" then
    "You are Athena, an AI research assistant.\n\nDOCUMENT:\n"
      ++ strTake (s.pdf_context.getD "") 1500 ++ "\n\n" ++ build_context s
      ++ "\n\nUser: " ++ user_message ++ "\nAthena:"
  else
    "You are Athena, an AI research assistant. You're knowledgeable, helpful, and professional.\n\n"
      ++ build_context s ++ "\n\nUser: " ++ user_message ++ "\nAthena:"

/-- `AthenaChat.chat_stream`: cache lookup, one streaming request, the
token loop, then — only when the assembled stripped message is non-empty —
the append to `chat_history` and the cache store.  Returns the yielded
chunks and the state after the call.  `backend` maps the prompt of the
single POST request to its outcome; `now` stands for `datetime.now()`.  -/
def chat_stream (s : ChatState) (user_message : String)
    (backend : String → BackendResponse) (now : Nat) : List String × ChatState :=
  match cacheGet s.cache (get_cache_key s.pdf_context user_message) with
  | some cached => ([cached], s)
  | none =>
    match backend (chat_prompt s user_message) with
    | .connError => ([chatConnMsg], s)
    | .timeout => ([chatTimeoutMsg], s)
    | .http status _ lines =>
      if status ≠ 200 then ([chatStatusMsg status], s)
      else if pyStrip (String.join (streamTokens lines)) = "" then (streamTokens lines, s)
      else
        (streamTokens lines,
          { s with
            chat_history := s.chat_history ++
              [⟨now, user_message, pyStrip (String.join (streamTokens lines))⟩],
            cache := cachePut s.cache (get_cache_key s.pdf_context user_message)
              (pyStrip (String.join (streamTokens lines))) })

/-- `AthenaChat.chat`: cache lookup, else collect every chunk yielded by
`chat_stream` and return their (unstripped) concatenation.  -/
def chat (s : ChatState) (user_message : String)
    (backend : String → BackendResponse) (now : Nat) : String × ChatState :=
  match cacheGet s.cache (get_cache_key s.pdf_context user_message) with
  | some cached => (cached, s)
  | none =>
    (String.join (chat_stream s user_message backend now).1,
     (chat_stream s user_message backend now).2)

/-- `AthenaChat.set_pdf_context`: store the new context and clear the
response cache.  -/
def set_pdf_context (s : ChatState) (pdf_text : String) : ChatState :=
  { s with pdf_context := some pdf_text, cache := [] }

/-- `AthenaChat.clear_history`: empty the history and clear the cache.  -/
def clear_history (s : ChatState) : ChatState :=
  { s with chat_history := [], cache := [] }

/-- `AthenaChat.clear_pdf_context`: drop the context and clear the cache.  -/
def clear_pdf_context (s : ChatState) : ChatState :=
  { s with pdf_context := none, cache := [] }

/-- `AthenaChat.export_history`: the transcript text written to the export
file — fixed header, then one block per turn with timestamp, user and
assistant lines, separated by a rule line.  -/
def export_history (s : ChatState) : String :=
  "Athena Chat History\n" ++ String.mk (List.replicate 50 '=') ++ "\n\n"
    ++ String.join
      ((s.chat_history.enumFrom 1).map (fun p =>
        "Exchange " ++ toString p.1 ++ "\nTime: " ++ toString p.2.timestamp
          ++ "\nUser: " ++ p.2.user ++ "\nAthena: " ++ p.2.assistant ++ "\n"
          ++ String.mk (List.replicate 50 '-') ++ "\n\n"))

/-- The fixed refusal sentence `qa_engine`'s prompt instructs the model to
emit when the context is insufficient.  -/
def refusalSentence : String :=
  "I don't have enough information from this document to answer that question."

/-- The grounded-QA prompt of `qa_engine.answer_stream` (the f-string with
the joined context and the question spliced in).  -/
def qaPrompt (context question : String) : String :=
  "You are Athena, an intelligent AI research assistant.\nAnswer the question based strictly on the provided context below.\nIf the context doesn't contain enough information, say: \""
    ++ refusalSentence
    ++ "\"\n\nContext:\n" ++ context ++ "\n\nQuestion: " ++ question ++ "\n\nAnswer:"

/-- The separator `qa_engine` joins retrieved passages with.  -/
def qaJoinContext (docs : List String) : String :=
  pyJoin "\n\n---\n\n" docs

/-- Error message yielded by `answer_stream` on a connection error.  -/
def qaConnMsg : String :=
  "❌ Could not connect to Ollama. Make sure it's running on http://localhost:11434"

/-- Error message yielded by `answer_stream` on a timeout.  -/
def qaTimeoutMsg : String :=
  "❌ Request timed out. The model might be processing a large context."

/-- Error message yielded by `answer_stream` on a non-200 status code:
both the code and the body text are interpolated.  -/
def qaStatusMsg (status : Nat) (body : String) : String :=
  "❌ Ollama API error " ++ toString status ++ ": " ++ body

/-- Message yielded by `answer_stream` when retrieval returns no
documents.  -/
def qaNoContextMsg : String :=
  "⚠️ No relevant context found in the document."

/-- `qa_engine.answer_stream` with the retrieval result `docs` (the page
contents `retriever.invoke` returned) made an argument: the no-context
check, the single streaming request with the grounded prompt, and the
same token loop as the chat engine.  Returns the yielded chunks.  -/
def answer_stream (docs : List String) (question : String)
    (backend : String → BackendResponse) : List String :=
  if docs = [] then [qaNoContextMsg]
  else
    match backend (qaPrompt (qaJoinContext docs) question) with
    | .connError => [qaConnMsg]
    | .timeout => [qaTimeoutMsg]
    | .http status body lines =>
      if status ≠ 200 then [qaStatusMsg status body]
      else streamTokens lines

/-- `qa_engine.answer`: the stripped concatenation of the streamed
chunks.  -/
def answer (docs : List String) (question : String)
    (backend : String → BackendResponse) : String :=
  pyStrip (String.join (answer_stream docs question backend))

/-- `semantic_search.search_semantic` with the external FAISS call
`vectordb.similarity_search_with_score` made an argument `sim` (scores
kept abstract as integers; the code only moves them): the empty-query
guard returns `[]` before the index is consulted, an empty FAISS result
returns `[]`, and otherwise every `(page_content, distance)` pair is
returned unchanged.  -/
def search_semantic (sim : String → Nat → List (String × Int))
    (query : String) (k : Nat) : List (String × Int) :=
  if query = "" ∨ pyStrip query = "" then []
  else if sim query k = [] then []
  else (sim query k).map (fun r => (r.1, r.2))

/-- The fallback selection at the end of
`pdf_utils.extract_text_from_pdf_advanced`, with the extracted text as
input and the cleanup routine `clean_extracted_text` made an argument:
for non-empty extracted text return the cleaned text when
`len(cleaned) > len(text) * 0.5` and the original otherwise; empty
extracted text is returned as is.  The Python comparison is between an
integer and the exact float `len(text) * 0.5`, which holds iff
`2 * len(cleaned) > len(text)` over the integers.  -/
def extract_advanced_select (clean : String → String) (text : String) : String :=
  if text ≠ "" then
    let cleaned := clean text
    if 2 * cleaned.length > text.length then cleaned else text
  else text

/-! ## Helper lemmas -/

lemma strExt {s t : String} (h : s.data = t.data) : s = t := by
  cases s; cases t; exact congrArg String.mk h

lemma chat_stream_hit {s : ChatState} {m v : String} (backend : String → BackendResponse)
    (now : Nat) (hc : cacheGet s.cache (get_cache_key s.pdf_context m) = some v) :
    chat_stream s m backend now = ([v], s) := by
  unfold chat_stream; rw [hc]

lemma chat_stream_conn {s : ChatState} {m : String} {backend : String → BackendResponse}
    (now : Nat) (hc : cacheGet s.cache (get_cache_key s.pdf_context m) = none)
    (hb : backend (chat_prompt s m) = .connError) :
    chat_stream s m backend now = ([chatConnMsg], s) := by
  unfold chat_stream; rw [hc, hb]

lemma chat_stream_timeout {s : ChatState} {m : String} {backend : String → BackendResponse}
    (now : Nat) (hc : cacheGet s.cache (get_cache_key s.pdf_context m) = none)
    (hb : backend (chat_prompt s m) = .timeout) :
    chat_stream s m backend now = ([chatTimeoutMsg], s) := by
  unfold chat_stream; rw [hc, hb]

lemma chat_stream_status {s : ChatState} {m : String} {backend : String → BackendResponse}
    {st : Nat} {body : String} {lines : List StreamLine}
    (now : Nat) (hc : cacheGet s.cache (get_cache_key s.pdf_context m) = none)
    (hb : backend (chat_prompt s m) = .http st body lines) (hst : st ≠ 200) :
    chat_stream s m backend now = ([chatStatusMsg st], s) := by
  unfold chat_stream; rw [hc, hb]; simp [hst]

lemma chat_stream_ok_empty {s : ChatState} {m : String} {backend : String → BackendResponse}
    {body : String} {lines : List StreamLine}
    (now : Nat) (hc : cacheGet s.cache (get_cache_key s.pdf_context m) = none)
    (hb : backend (chat_prompt s m) = .http 200 body lines)
    (he : pyStrip (String.join (streamTokens lines)) = "") :
    chat_stream s m backend now = (streamTokens lines, s) := by
  unfold chat_stream; rw [hc, hb]; simp [he]

lemma chat_stream_ok {s : ChatState} {m : String} {backend : String → BackendResponse}
    {body : String} {lines : List StreamLine}
    (now : Nat) (hc : cacheGet s.cache (get_cache_key s.pdf_context m) = none)
    (hb : backend (chat_prompt s m) = .http 200 body lines)
    (he : pyStrip (String.join (streamTokens lines)) ≠ "") :
    chat_stream s m backend now =
      (streamTokens lines,
        { s with
          chat_history := s.chat_history ++
            [⟨now, m, pyStrip (String.join (streamTokens lines))⟩],
          cache := cachePut s.cache (get_cache_key s.pdf_context m)
            (pyStrip (String.join (streamTokens lines))) }) := by
  unfold chat_stream; rw [hc, hb]; simp [he]

lemma answer_stream_conn {docs : List String} {q : String} {backend : String → BackendResponse}
    (hd : docs ≠ []) (hb : backend (qaPrompt (qaJoinContext docs) q) = .connError) :
    answer_stream docs q backend = [qaConnMsg] := by
  unfold answer_stream; rw [if_neg hd, hb]

lemma answer_stream_timeout {docs : List String} {q : String} {backend : String → BackendResponse}
    (hd : docs ≠ []) (hb : backend (qaPrompt (qaJoinContext docs) q) = .timeout) :
    answer_stream docs q backend = [qaTimeoutMsg] := by
  unfold answer_stream; rw [if_neg hd, hb]

lemma answer_stream_status {docs : List String} {q : String} {backend : String → BackendResponse}
    {st : Nat} {body : String} {lines : List StreamLine}
    (hd : docs ≠ []) (hb : backend (qaPrompt (qaJoinContext docs) q) = .http st body lines)
    (hst : st ≠ 200) :
    answer_stream docs q backend = [qaStatusMsg st body] := by
  unfold answer_stream; rw [if_neg hd, hb]; simp [hst]

lemma answer_stream_ok {docs : List String} {q : String} {backend : String → BackendResponse}
    {body : String} {lines : List StreamLine}
    (hd : docs ≠ []) (hb : backend (qaPrompt (qaJoinContext docs) q) = .http 200 body lines) :
    answer_stream docs q backend = streamTokens lines := by
  unfold answer_stream; rw [if_neg hd, hb]; simp

/-! ## Claims -/

/-- C1: a chat turn that fails during generation — connection failure,
timeout, non-success status code, or a stream that yields no tokens —
leaves the conversation history, its exported transcript and the response
cache exactly as they were; and whenever a call does change the state it
is because a non-empty assistant message was assembled from the yielded
tokens: exactly one turn carrying that message is appended and exactly
that message is written to the cache.  -/
theorem failed_turn_preserves_history_and_cache :
    (∀ (s : ChatState) (m : String) (backend : String → BackendResponse) (now : Nat),
      (backend (chat_prompt s m) = .connError ∨
       backend (chat_prompt s m) = .timeout ∨
       (∃ st body lines, backend (chat_prompt s m) = .http st body lines ∧ st ≠ 200) ∨
       (∃ body lines, backend (chat_prompt s m) = .http 200 body lines ∧
          streamTokens lines = [])) →
      (chat_stream s m backend now).2.chat_history = s.chat_history ∧
      export_history (chat_stream s m backend now).2 = export_history s ∧
      (chat_stream s m backend now).2.cache = s.cache) ∧
    (∀ (s : ChatState) (m : String) (backend : String → BackendResponse) (now : Nat),
      (chat_stream s m backend now).2 ≠ s →
      pyStrip (String.join (chat_stream s m backend now).1) ≠ "" ∧
      (chat_stream s m backend now).2.chat_history =
        s.chat_history ++ [⟨now, m, pyStrip (String.join (chat_stream s m backend now).1)⟩] ∧
      cacheGet (chat_stream s m backend now).2.cache (get_cache_key s.pdf_context m) =
        some (pyStrip (String.join (chat_stream s m backend now).1))) := by
  constructor
  · intro s m backend now hfail
    have h2 : (chat_stream s m backend now).2 = s := by
      cases hc : cacheGet s.cache (get_cache_key s.pdf_context m) with
      | some v => rw [chat_stream_hit backend now hc]
      | none =>
        rcases hfail with hb | hb | ⟨st, body, lines, hb, hst⟩ | ⟨body, lines, hb, hnt⟩
        · rw [chat_stream_conn now hc hb]
        · rw [chat_stream_timeout now hc hb]
        · rw [chat_stream_status now hc hb hst]
        · rw [chat_stream_ok_empty now hc hb (by rw [hnt]; rfl)]
    exact ⟨by rw [h2], by rw [h2], by rw [h2]⟩
  · intro s m backend now hne
    cases hc : cacheGet s.cache (get_cache_key s.pdf_context m) with
    | some v => exact absurd (by rw [chat_stream_hit backend now hc]) hne
    | none =>
      cases hb : backend (chat_prompt s m) with
      | connError => exact absurd (by rw [chat_stream_conn now hc hb]) hne
      | timeout => exact absurd (by rw [chat_stream_timeout now hc hb]) hne
      | http st body lines =>
        by_cases hst : st = 200
        · subst hst
          by_cases he : pyStrip (String.join (streamTokens lines)) = ""
          · exact absurd (by rw [chat_stream_ok_empty now hc hb he]) hne
          · rw [chat_stream_ok now hc hb he]
            exact ⟨he, rfl, by simp [cacheGet, cachePut]⟩
        · exact absurd (by rw [chat_stream_status now hc hb hst]) hne

/-- Witness for C1: the connection-failure case at a concrete state and a
concrete successful call changing the state.  -/
theorem failed_turn_preserves_history_and_cache_check :
    (chat_stream initState "hi" (fun _ => .connError) 0).2.chat_history
        = initState.chat_history ∧
    (chat_stream initState "hi" (fun _ => .connError) 0).2.cache = initState.cache ∧
    pyStrip (String.join
      (chat_stream initState "hi" (fun _ => .http 200 "" [.record (some "ok") true]) 3).1) ≠ "" := by
  refine ⟨(failed_turn_preserves_history_and_cache.1 initState "hi" _ 0 (Or.inl rfl)).1,
          (failed_turn_preserves_history_and_cache.1 initState "hi" _ 0 (Or.inl rfl)).2.2, ?_⟩
  exact (failed_turn_preserves_history_and_cache.2 initState "hi" _ 3 (by decide)).1

/-- C2: the streaming loop skips blank lines, skips unparseable records
and continues, extracts and yields the non-empty token field of every
parseable record up to and including the record carrying the terminal
marker (the token riding on the terminal record is surfaced), and stops
at the terminal marker or stream end — it equals the spec-side
description `tokensSpec`, and on a concrete mixed stream it yields
exactly the tokens before and on the terminal record.  -/
theorem stream_loop_matches_protocol :
    (∀ lines, streamTokens lines = tokensSpec lines) ∧
    streamTokens [.blank, .malformed "not json", .record (some "a") false,
      .record none false, .record (some "b") true, .record (some "c") false] = ["a", "b"] := by
  constructor
  · intro lines
    induction lines with
    | nil => rfl
    | cons l rest ih =>
      cases l with
      | blank => simpa [streamTokens, upToDone, tokensSpec, recordToken] using ih
      | malformed s => simpa [streamTokens, upToDone, tokensSpec, recordToken] using ih
      | record r done =>
        cases done with
        | true =>
          by_cases h : r.getD "" = "" <;>
            simp [streamTokens, upToDone, tokensSpec, recordToken, h]
        | false =>
          by_cases h : r.getD "" = "" <;>
            simp [streamTokens, upToDone, tokensSpec, recordToken, h, ih]
  · decide

/-- C3 counterexample: a whitespace-only query makes `search_semantic`
return the ordinary empty list — no `EmptyQueryError` (no error of any
kind) exists on that path, even against an index whose search would have
returned a hit; the result is indistinguishable from a legitimate empty
search on a valid query.  -/
theorem empty_query_no_error_at_blank :
    search_semantic (fun q _ => [(q, 7)]) " " 3 = [] ∧
    search_semantic (fun _ _ => []) "a valid question" 3 = [] := by
  constructor <;> decide

/-- C3 as amended: an empty or whitespace-only query makes
`search_semantic` return an empty list without consulting the index (the
result is the same for every index-search function), and an empty list is
likewise returned when the index search legitimately finds nothing.  -/
theorem empty_query_returns_empty_list :
    (∀ (sim : String → Nat → List (String × Int)) (q : String) (k : Nat),
      pyStrip q = "" → search_semantic sim q k = []) ∧
    (∀ (sim : String → Nat → List (String × Int)) (q : String) (k : Nat),
      sim q k = [] → search_semantic sim q k = []) := by
  constructor
  · intro sim q k h
    unfold search_semantic
    rw [if_pos (Or.inr h)]
  · intro sim q k h
    unfold search_semantic
    by_cases he : q = "" ∨ pyStrip q = ""
    · rw [if_pos he]
    · rw [if_neg he, if_pos h]

/-- Witness for C3: a concrete whitespace query against a non-empty index
and a concrete valid query against an empty search.  -/
theorem empty_query_returns_empty_list_check :
    search_semantic (fun q _ => [(q, 1)]) "  " 4 = [] ∧
    search_semantic (fun _ _ => []) "hello" 4 = [] :=
  ⟨empty_query_returns_empty_list.1 _ "  " 4 (by decide),
   empty_query_returns_empty_list.2 _ "hello" 4 rfl⟩

/-- C5: the cache fingerprint is invariant under case folding and
whitespace trimming of the user message — any two messages that agree
after `lower().strip()` produce the same cache key for every context.  -/
theorem cache_key_invariant_under_normalization :
    ∀ (ctx : Option String) (q1 q2 : String),
      pyStrip (pyLower q1) = pyStrip (pyLower q2) →
      get_cache_key ctx q1 = get_cache_key ctx q2 := by
  intro ctx q1 q2 h
  unfold get_cache_key
  rw [h]

/-- Witness for C5: the spec's own example, `"Hello "` versus
`"hello"`.  -/
theorem cache_key_invariant_under_normalization_check :
    get_cache_key none "Hello " = get_cache_key none "hello" :=
  cache_key_invariant_under_normalization none "Hello " "hello" (by decide)

/-- C7: setting a new document context, clearing the conversation
history, and removing the document context each leave the response cache
empty — every lookup, in particular of any fingerprint stored before the
operation, returns nothing.  -/
theorem context_and_history_operations_empty_cache :
    ∀ (s : ChatState) (t : String) (f : String),
      cacheGet (set_pdf_context s t).cache f = none ∧
      cacheGet (clear_history s).cache f = none ∧
      cacheGet (clear_pdf_context s).cache f = none := by
  intro s t f
  exact ⟨rfl, rfl, rfl⟩

lemma strTake_prefix_key (c1 c2 q : String)
    (h : strTake c1 1000 = strTake c2 1000) :
    get_cache_key (some c1) q = get_cache_key (some c2) q := by
  unfold get_cache_key
  simp only [Option.getD_some]
  rw [h]

lemma keys_differ_of_ctx_hash_ne (c1 c2 q : String)
    (h : strTake (md5hex (strTake c1 1000)) 8 ≠ strTake (md5hex (strTake c2 1000)) 8) :
    get_cache_key (some c1) q ≠ get_cache_key (some c2) q := by
  intro he
  apply h
  unfold get_cache_key at he
  simp only [Option.getD_some] at he
  have hd := congrArg String.data he
  simp only [String.data_append] at hd
  exact strExt (List.append_cancel_right (List.append_cancel_right hd))

/-- C6 counterexample: two distinct contexts — 1000 versus 1001 copies of
`a` — produce the same cache key for the same query, deterministically
and for any digest, because the key only hashes the first 1000 characters
of the context: the claimed "fingerprint differs whenever the context
differs, up to digest collisions" fails.  -/
theorem cache_key_collision_beyond_first_1000 :
    String.mk (List.replicate 1000 'a') ≠ String.mk (List.replicate 1001 'a') ∧
    get_cache_key (some (String.mk (List.replicate 1000 'a'))) "q"
      = get_cache_key (some (String.mk (List.replicate 1001 'a'))) "q" := by
  constructor
  · intro h
    have h2 : (List.replicate 1000 'a').length = (List.replicate 1001 'a').length :=
      congrArg (fun s => s.data.length) h
    rw [List.length_replicate, List.length_replicate] at h2
    exact absurd h2 (by norm_num)
  · apply strTake_prefix_key
    apply strExt
    show (List.replicate 1000 'a').take 1000 = (List.replicate 1001 'a').take 1000
    rw [List.take_replicate, List.take_replicate]
    norm_num

/-- C6 as amended: the cache fingerprint depends on the document context
only through the first 1000 characters — contexts agreeing on that prefix
always produce equal fingerprints (even when the contexts differ), and
the fingerprint changes exactly as far as the 8-character truncated
digest of that prefix changes: when those truncated digests differ, the
fingerprints differ.  -/
theorem cache_key_depends_only_on_first_1000 :
    (∀ (c1 c2 q : String), strTake c1 1000 = strTake c2 1000 →
      get_cache_key (some c1) q = get_cache_key (some c2) q) ∧
    (∀ (c1 c2 q : String),
      strTake (md5hex (strTake c1 1000)) 8 ≠ strTake (md5hex (strTake c2 1000)) 8 →
      get_cache_key (some c1) q ≠ get_cache_key (some c2) q) :=
  ⟨strTake_prefix_key, keys_differ_of_ctx_hash_ne⟩

/-- Witness for C6: equal one-character contexts share a key, and the
contexts `"a"` and `"b"`, whose truncated prefix digests differ, give
different keys.  -/
theorem cache_key_depends_only_on_first_1000_check :
    get_cache_key (some "a") "q" = get_cache_key (some "a") "q" ∧
    get_cache_key (some "a") "q" ≠ get_cache_key (some "b") "q" :=
  ⟨cache_key_depends_only_on_first_1000.1 "a" "a" "q" rfl,
   cache_key_depends_only_on_first_1000.2 "a" "b" "q" (by decide)⟩

lemma qaStatusMsg_contains_code (st : Nat) (body : String) :
    strContains (qaStatusMsg st body) (toString st) :=
  ⟨"❌ Ollama API error ".data, ": ".data ++ body.data, by
    simp [qaStatusMsg, strContains, String.data_append, List.append_assoc]⟩

lemma qaStatusMsg_contains_body (st : Nat) (body : String) :
    strContains (qaStatusMsg st body) body :=
  ⟨"❌ Ollama API error ".data ++ (toString st).data ++ ": ".data, [], by
    simp [qaStatusMsg, String.data_append, List.append_assoc]⟩

lemma chatStatusMsg_contains_code (st : Nat) :
    strContains (chatStatusMsg st) (toString st) :=
  ⟨"❌ Error: ".data, [], by simp [chatStatusMsg, String.data_append]⟩

lemma qaStatusMsg_ne_conn (st : Nat) (body : String) : qaStatusMsg st body ≠ qaConnMsg := by
  intro h
  have hd := congrArg String.data h
  simp only [qaStatusMsg, qaConnMsg, String.data_append] at hd
  simp at hd

lemma qaStatusMsg_ne_timeout (st : Nat) (body : String) : qaStatusMsg st body ≠ qaTimeoutMsg := by
  intro h
  have hd := congrArg String.data h
  simp only [qaStatusMsg, qaTimeoutMsg, String.data_append] at hd
  simp at hd

lemma chatStatusMsg_ne_conn (st : Nat) : chatStatusMsg st ≠ chatConnMsg := by
  intro h
  have hd := congrArg String.data h
  simp only [chatStatusMsg, chatConnMsg, String.data_append] at hd
  simp at hd

lemma chatStatusMsg_ne_timeout (st : Nat) : chatStatusMsg st ≠ chatTimeoutMsg := by
  intro h
  have hd := congrArg String.data h
  simp only [chatStatusMsg, chatTimeoutMsg, String.data_append] at hd
  simp at hd

/-- C4 counterexample: on a 500 response with body `"Internal Server
Error"`, the chat engine's terminal error message is `"❌ Error: 500"` —
it does not contain the response body, against the claim that the
non-success condition surfaces both the status code and the body.  -/
theorem chat_non200_message_omits_body :
    (chat_stream initState "q" (fun _ => .http 500 "Internal Server Error" []) 0).1
      = ["❌ Error: 500"] ∧
    ¬ strContains "❌ Error: 500" "Internal Server Error" := by
  constructor
  · decide
  · rintro ⟨pre, post, h⟩
    have hl := congrArg List.length h
    have h13 : ("❌ Error: 500".data).length = 12 := by decide
    have h21 : ("Internal Server Error".data).length = 21 := by decide
    simp only [List.length_append, h13, h21] at hl
    omega

/-- C4 as amended: every backend failure makes the generation stream
yield exactly one terminal error message and leave the state alone,
never raising past the caller; connection failure, timeout and
non-success status are pairwise distinguishable messages in both
engines; the non-success message surfaces the status code in both
engines and the response body in the one-shot QA engine, while the chat
engine's message carries only the code.  -/
theorem backend_failures_yield_single_distinct_message :
    (∀ (docs : List String) (q : String) (backend : String → BackendResponse),
      docs ≠ [] →
      (backend (qaPrompt (qaJoinContext docs) q) = .connError →
        answer_stream docs q backend = [qaConnMsg]) ∧
      (backend (qaPrompt (qaJoinContext docs) q) = .timeout →
        answer_stream docs q backend = [qaTimeoutMsg]) ∧
      (∀ st body lines, st ≠ 200 →
        backend (qaPrompt (qaJoinContext docs) q) = .http st body lines →
        answer_stream docs q backend = [qaStatusMsg st body])) ∧
    (∀ (st : Nat) (body : String),
      strContains (qaStatusMsg st body) (toString st) ∧
      strContains (qaStatusMsg st body) body ∧
      qaStatusMsg st body ≠ qaConnMsg ∧ qaStatusMsg st body ≠ qaTimeoutMsg) ∧
    qaConnMsg ≠ qaTimeoutMsg ∧
    (∀ (s : ChatState) (m : String) (backend : String → BackendResponse) (now : Nat),
      cacheGet s.cache (get_cache_key s.pdf_context m) = none →
      (backend (chat_prompt s m) = .connError →
        chat_stream s m backend now = ([chatConnMsg], s)) ∧
      (backend (chat_prompt s m) = .timeout →
        chat_stream s m backend now = ([chatTimeoutMsg], s)) ∧
      (∀ st body lines, st ≠ 200 →
        backend (chat_prompt s m) = .http st body lines →
        chat_stream s m backend now = ([chatStatusMsg st], s))) ∧
    (∀ st : Nat,
      strContains (chatStatusMsg st) (toString st) ∧
      chatStatusMsg st ≠ chatConnMsg ∧ chatStatusMsg st ≠ chatTimeoutMsg) ∧
    chatConnMsg ≠ chatTimeoutMsg := by
  refine ⟨?_, ?_, by decide, ?_, ?_, by decide⟩
  · intro docs q backend hd
    exact ⟨fun hb => answer_stream_conn hd hb,
           fun hb => answer_stream_timeout hd hb,
           fun st body lines hst hb => answer_stream_status hd hb hst⟩
  · intro st body
    exact ⟨qaStatusMsg_contains_code st body, qaStatusMsg_contains_body st body,
           qaStatusMsg_ne_conn st body, qaStatusMsg_ne_timeout st body⟩
  · intro s m backend now hc
    exact ⟨fun hb => chat_stream_conn now hc hb,
           fun hb => chat_stream_timeout now hc hb,
           fun st body lines hst hb => chat_stream_status now hc hb hst⟩
  · intro st
    exact ⟨chatStatusMsg_contains_code st, chatStatusMsg_ne_conn st,
           chatStatusMsg_ne_timeout st⟩

/-- Witness for C4: concrete connection failure of the QA engine and a
concrete 404 on the chat engine.  -/
theorem backend_failures_yield_single_distinct_message_check :
    answer_stream ["some context"] "q" (fun _ => .connError) = [qaConnMsg] ∧
    chat_stream initState "m" (fun _ => .http 404 "not found" []) 7
      = ([chatStatusMsg 404], initState) :=
  ⟨(backend_failures_yield_single_distinct_message.1 ["some context"] "q" _
      (by decide)).1 rfl,
   ((backend_failures_yield_single_distinct_message.2.2.2.1 initState "m" _ 7
      rfl).2.2) 404 "not found" [] (by decide) rfl⟩

lemma strContains_mid (a b c : String) : strContains (a ++ b ++ c) b :=
  ⟨a.data, c.data, by simp [String.data_append]⟩

lemma strContains_of_eq {s : String} (a b c : String) (h : s = a ++ b ++ c) :
    strContains s b := by
  rw [h]; exact strContains_mid a b c

/-- C8: the grounded-QA prompt contains the literal user question and the
literal refusal sentence; and a stubbed backend answering with the
records `["Paris", " is", " the", " capital", "."]`, the terminal marker
riding on the last record, makes a chat turn from a fresh session yield
exactly those tokens, assemble the final answer
`"Paris is the capital."`, and append exactly one conversation turn
carrying it.  -/
theorem end_to_end_grounded_turn :
    (∀ ctx q : String,
      strContains (qaPrompt ctx q) q ∧
      strContains (qaPrompt ctx q) refusalSentence) ∧
    (∀ now : Nat,
      (chat_stream initState "What is the capital of France?"
        (fun _ => .http 200 ""
          [.record (some "Paris") false, .record (some " is") false,
           .record (some " the") false, .record (some " capital") false,
           .record (some ".") true]) now).1
        = ["Paris", " is", " the", " capital", "."] ∧
      pyStrip (String.join (chat_stream initState "What is the capital of France?"
        (fun _ => .http 200 ""
          [.record (some "Paris") false, .record (some " is") false,
           .record (some " the") false, .record (some " capital") false,
           .record (some ".") true]) now).1) = "Paris is the capital." ∧
      (chat_stream initState "What is the capital of France?"
        (fun _ => .http 200 ""
          [.record (some "Paris") false, .record (some " is") false,
           .record (some " the") false, .record (some " capital") false,
           .record (some ".") true]) now).2.chat_history
        = [⟨now, "What is the capital of France?", "Paris is the capital."⟩] ∧
      (chat_stream initState "What is the capital of France?"
        (fun _ => .http 200 ""
          [.record (some "Paris") false, .record (some " is") false,
           .record (some " the") false, .record (some " capital") false,
           .record (some ".") true]) now).2.chat_history.length
        = initState.chat_history.length + 1) := by
  constructor
  · intro ctx q
    constructor
    · exact strContains_of_eq
        ("You are Athena, an intelligent AI research assistant.\nAnswer the question based strictly on the provided context below.\nIf the context doesn't contain enough information, say: \""
          ++ refusalSentence ++ "\"\n\nContext:\n" ++ ctx ++ "\n\nQuestion: ") q "\n\nAnswer:"
        (by apply strExt; simp only [qaPrompt, String.data_append, List.append_assoc])
    · exact strContains_of_eq
        "You are Athena, an intelligent AI research assistant.\nAnswer the question based strictly on the provided context below.\nIf the context doesn't contain enough information, say: \""
        refusalSentence
        ("\"\n\nContext:\n" ++ ctx ++ "\n\nQuestion: " ++ q ++ "\n\nAnswer:")
        (by apply strExt; simp only [qaPrompt, String.data_append, List.append_assoc])
  · intro now
    exact ⟨rfl, rfl, rfl, rfl⟩

lemma half_lt_iff (c n : Nat) : ((n : ℚ) / 2 < (c : ℚ)) ↔ n < 2 * c := by
  rw [div_lt_iff₀ (by norm_num : (0:ℚ) < 2)]
  norm_cast
  omega

/-- C9: for non-empty extracted text, the advanced-extraction fallback
returns the cleaned text exactly when the cleaned text's length exceeds
50 percent of the original length (the literal threshold, stated over the
rationals), and the original text unchanged otherwise.  -/
theorem advanced_extraction_threshold :
    ∀ (clean : String → String) (t : String), t ≠ "" →
      extract_advanced_select clean t
        = (if ((clean t).length : ℚ) > (t.length : ℚ) / 2 then clean t else t) := by
  intro clean t ht
  unfold extract_advanced_select
  rw [if_pos ht]
  by_cases h : 2 * (clean t).length > t.length
  · rw [if_pos h, if_pos ((half_lt_iff _ _).mpr h)]
  · rw [if_neg h, if_neg (fun hq => h ((half_lt_iff _ _).mp hq))]

/-- Witness for C9: a cleaning that keeps 2 of 3 characters (above the
threshold — cleaned text returned) and one that keeps 1 of 3 (at or
below — original returned).  -/
theorem advanced_extraction_threshold_check :
    extract_advanced_select (fun _ => "ab") "abc" = "ab" ∧
    extract_advanced_select (fun _ => "a") "abc" = "abc" := by
  constructor
  · have hcond :
        (((fun _ : String => "ab") "abc").length : ℚ) > (("abc" : String).length : ℚ) / 2 := by
      show ((2 : Nat) : ℚ) > ((3 : Nat) : ℚ) / 2
      norm_num
    rw [advanced_extraction_threshold (fun _ => "ab") "abc" (by decide), if_pos hcond]
  · have hcond :
        ¬ ((((fun _ : String => "a") "abc").length : ℚ) > (("abc" : String).length : ℚ) / 2) := by
      show ¬ (((1 : Nat) : ℚ) > ((3 : Nat) : ℚ) / 2)
      norm_num
    rw [advanced_extraction_threshold (fun _ => "a") "abc" (by decide), if_neg hcond]

lemma chat_hit {s : ChatState} {m v : String} (backend : String → BackendResponse)
    (now : Nat) (hc : cacheGet s.cache (get_cache_key s.pdf_context m) = some v) :
    chat s m backend now = (v, s) := by
  unfold chat; rw [hc]

lemma chat_miss {s : ChatState} {m : String} (backend : String → BackendResponse)
    (now : Nat) (hc : cacheGet s.cache (get_cache_key s.pdf_context m) = none) :
    chat s m backend now =
      (String.join (chat_stream s m backend now).1, (chat_stream s m backend now).2) := by
  unfold chat; rw [hc]

lemma cacheGet_cachePut (c : Cache) (k v : String) :
    cacheGet (cachePut c k v) k = some v := by
  simp [cacheGet, cachePut]

/-- C10 counterexample: a cache-miss turn whose stream yields the single
whitespace token `" "` appends no conversation turn and writes no cache
entry — the stripped concatenation is empty, so nothing is recorded at
all, against the claim that every at-least-one-token miss records the
stripped concatenation.  -/
theorem whitespace_token_stream_records_nothing :
    streamTokens [.record (some " ") true] = [" "] ∧
    cacheGet initState.cache (get_cache_key initState.pdf_context "m") = none ∧
    (chat_stream initState "m" (fun _ => .http 200 "" [.record (some " ") true]) 0).2
      = initState := by
  exact ⟨rfl, rfl, by decide⟩

/-- C10 as amended: on a cache miss whose stream yields tokens with a
non-whitespace-only concatenation, the recorded and cached assistant
message is the stripped concatenation of the yielded tokens while the
non-streaming `chat` call returns the unstripped concatenation, and
repeating the identical call — now served from the cache, whatever the
backend does — returns the stripped value; concretely, a first call
returning `"Hi "` is followed by a repeat call returning `"Hi"`, which
differs by trailing whitespace.  -/
theorem stripped_record_vs_unstripped_return :
    (∀ (s : ChatState) (m : String) (backend : String → BackendResponse)
       (now : Nat) (body : String) (lines : List StreamLine),
      cacheGet s.cache (get_cache_key s.pdf_context m) = none →
      backend (chat_prompt s m) = .http 200 body lines →
      pyStrip (String.join (streamTokens lines)) ≠ "" →
      (chat s m backend now).1 = String.join (streamTokens lines) ∧
      (chat s m backend now).2.chat_history = s.chat_history ++
        [⟨now, m, pyStrip (String.join (streamTokens lines))⟩] ∧
      cacheGet (chat s m backend now).2.cache (get_cache_key s.pdf_context m)
        = some (pyStrip (String.join (streamTokens lines))) ∧
      (∀ (backend2 : String → BackendResponse) (now2 : Nat),
        (chat (chat s m backend now).2 m backend2 now2).1
          = pyStrip (String.join (streamTokens lines)))) ∧
    ((chat initState "hi" (fun _ => .http 200 "" [.record (some "Hi ") true]) 0).1
        = "Hi " ∧
     (chat ((chat initState "hi"
          (fun _ => .http 200 "" [.record (some "Hi ") true]) 0).2)
        "hi" (fun _ => .connError) 1).1 = "Hi" ∧
     ("Hi " : String) ≠ "Hi") := by
  constructor
  · intro s m backend now body lines hc hb he
    have hcs := chat_stream_ok now hc hb he
    rw [chat_miss backend now hc, hcs]
    refine ⟨rfl, rfl, cacheGet_cachePut _ _ _, ?_⟩
    intro backend2 now2
    rw [chat_hit backend2 now2 (cacheGet_cachePut s.cache
      (get_cache_key s.pdf_context m) (pyStrip (String.join (streamTokens lines))))]
  · exact ⟨by decide, by decide, by decide⟩

/-- Witness for C10: the general statement applied to a fresh session and
the one-token stream `["Hi "]`.  -/
theorem stripped_record_vs_unstripped_return_check :
    (chat initState "hi" (fun _ => .http 200 "" [.record (some "Hi ") true]) 0).1
      = String.join (streamTokens [.record (some "Hi ") true]) ∧
    cacheGet (chat initState "hi"
        (fun _ => .http 200 "" [.record (some "Hi ") true]) 0).2.cache
        (get_cache_key initState.pdf_context "hi")
      = some (pyStrip (String.join (streamTokens [.record (some "Hi ") true]))) := by
  have h := stripped_record_vs_unstripped_return.1 initState "hi"
    (fun _ => .http 200 "" [.record (some "Hi ") true]) 0 ""
    [.record (some "Hi ") true] rfl rfl (by decide)
  exact ⟨h.1, h.2.2.1⟩
